import Mathlib

/-!
Verification of the media-session bridge of Better-Windows-Media-Controller
(src/main.py) by a shallow embedding in Lean 4.

Modelling conventions:
* Python exceptions are modelled with `Except PyExc`: an OS call that may
  raise is a field of type `Except PyExc α` holding the outcome that call
  would produce in the modelled poll cycle.
* `getattr(obj, "attr", default)` on WinRT control flags is modelled by
  `Option Bool` fields read through `Option.getD default`.
* The background runner is transparent: `runner.run(coro)` simply yields the
  coroutine's outcome (a timeout is one more kind of raised exception and is
  covered by the `Except.error` cases).
* Python tuples of heterogeneous values (the return of `query_now_playing`)
  are modelled as `List PyObj` so that the arity of the returned tuple is
  observable, exactly as Python's sequence-unpacking observes it.
-/

/-- Exception value: Python type name and message, as used by
the handler `f"{type(e).__name__}: {e}"` in `smtc_action`. -/
structure PyExc where
  name : String
  msg : String
  deriving DecidableEq, Repr

/-- Renders an exception the way the `except` clause of `smtc_action` does. -/
def PyExc.fmt (e : PyExc) : String := e.name ++ ": " ++ e.msg

instance {ε α : Type} [DecidableEq ε] [DecidableEq α] : DecidableEq (Except ε α) :=
  fun a b =>
    match a, b with
    | .error e, .error f =>
      if h : e = f then isTrue (by rw [h]) else
        isFalse (by intro hh; injection hh; exact h (by assumption))
    | .error _, .ok _ => isFalse (by intro hh; injection hh)
    | .ok _, .error _ => isFalse (by intro hh; injection hh)
    | .ok x, .ok y =>
      if h : x = y then isTrue (by rw [h]) else
        isFalse (by intro hh; injection hh; exact h (by assumption))

/-- Playback status of a session
(`GlobalSystemMediaTransportControlsSessionPlaybackStatus`). -/
inductive PlaybackStatus where
  | playing
  | paused
  | stopped
  deriving DecidableEq, Repr

/-- Boolean test `status == SessionPlaybackStatus.PLAYING` from the source. -/
def statusPlaying : PlaybackStatus → Bool
  | .playing => true
  | _ => false

/-- Control flags of `playback_info().controls`; each flag is `Option Bool`
because the source reads them with `getattr(c, flag, default)` and the
defaults differ between call sites. -/
structure ControlsOpt where
  is_play_pause_toggle_enabled : Option Bool
  is_play_enabled : Option Bool
  is_pause_enabled : Option Bool
  is_next_enabled : Option Bool
  is_previous_enabled : Option Bool
  deriving DecidableEq, Repr

/-- Result of `session.get_playback_info()`. -/
structure Pbi where
  playback_status : PlaybackStatus
  controls : ControlsOpt
  deriving DecidableEq, Repr

/-- The thumbnail stream reference of the media properties: `readE` is the
outcome of `open_read_async` / `read_async` / `DataReader.read_bytes`,
producing the raw bytes read into the 5,000,000-byte buffer (an error
anywhere in that pipeline is a raised exception). -/
structure ThumbRef where
  readE : Except PyExc (List Nat)
  deriving DecidableEq, Repr

/-- Result of `session.try_get_media_properties_async()`. Python falsiness of
`props.title` / `props.artist` / `props.album_artist` is modelled by the
empty string. -/
structure MediaProps where
  title : String
  artist : String
  album_artist : String
  thumbnail : Option ThumbRef
  deriving DecidableEq, Repr

/-- One media session as the bridge observes it during a poll cycle: every
fallible WinRT call the source performs on a session appears as the outcome
that call would give. `sid` is an identity tag used only to state theorems
about which session was selected. -/
structure Sess where
  sid : Nat
  pbiE : Except PyExc Pbi
  hasToggle : Bool
  toggleE : Except PyExc Bool
  playE : Except PyExc Bool
  pauseE : Except PyExc Bool
  nextE : Except PyExc Bool
  prevE : Except PyExc Bool
  propsE : Except PyExc MediaProps
  sourceE : Except PyExc String
  deriving DecidableEq, Repr

/-- One manager handle as observed during a poll: the outcomes of
`get_current_session()` and `get_sessions()` (both may raise). -/
structure ManagerQ where
  current : Except PyExc (Option Sess)
  sessionsQ : Except PyExc (List Sess)
  deriving DecidableEq, Repr

/-- Predicate of the selection loop in `_pick_best_session`: the session's
`get_playback_info().playback_status` query succeeds and reports Playing; a
raising query is swallowed by the inner `except: pass` and the session is
skipped. -/
def sessIsPlaying (s : Sess) : Bool :=
  match s.pbiE with
  | .ok p => statusPlaying p.playback_status
  | .error _ => false

/-- Embedding of `_pick_best_session` (src/main.py lines 93-107): prefer the
manager's current session; otherwise the first enumerated session whose
status query succeeds with Playing; otherwise the first enumerated session;
none on an empty enumeration. Failures of `get_current_session` or
`get_sessions` propagate as exceptions. -/
def pick_best_session (m : ManagerQ) : Except PyExc (Option Sess) :=
  match m.current with
  | .error e => .error e
  | .ok (some c) => .ok (some c)
  | .ok none =>
    match m.sessionsQ with
    | .error e => .error e
    | .ok [] => .ok none
    | .ok (first :: rest) =>
      match (first :: rest).find? sessIsPlaying with
      | some s => .ok (some s)
      | none => .ok (some first)

/-- Observable outcome of one `_ensure_session` call: the returned value (or
the exception it raises), the manager cache afterwards, and how many
`_get_manager` acquisitions and `_pick_best_session` attempts were made. -/
structure EnsureResult where
  result : Except PyExc (Option Sess)
  cacheAfter : Option ManagerQ
  acquisitions : Nat
  pickAttempts : Nat
  deriving DecidableEq, Repr

/-- The `try/except` half of `_ensure_session` once a manager `m` is cached:
pick; on failure re-acquire (the `k`-th acquisition of this call) and pick
again, letting any failure of the retry or of the re-acquisition propagate.
`gs` is the stream of `_get_manager()` outcomes. -/
def ensure_session_core (m : ManagerQ) (gs : Nat → Except PyExc ManagerQ)
    (k : Nat) : EnsureResult :=
  match pick_best_session m with
  | .ok r => ⟨.ok r, some m, k, 1⟩
  | .error _ =>
    match gs k with
    | .error e => ⟨.error e, some m, k + 1, 1⟩
    | .ok m2 =>
      match pick_best_session m2 with
      | .ok r => ⟨.ok r, some m2, k + 1, 2⟩
      | .error e2 => ⟨.error e2, some m2, k + 1, 2⟩

/-- Embedding of `_ensure_session` (src/main.py lines 110-117): acquire a
manager if the cache is empty (an acquisition failure there propagates with
the cache untouched), then run the pick / re-acquire-once / retry-once body. -/
def ensure_session (cache : Option ManagerQ) (gs : Nat → Except PyExc ManagerQ) :
    EnsureResult :=
  match cache with
  | some m => ensure_session_core m gs 0
  | none =>
    match gs 0 with
    | .error e => ⟨.error e, none, 1, 0⟩
    | .ok m => ensure_session_core m gs 1

/-- Environment of one `smtc_action` call: the manager cache and the stream of
`_get_manager()` outcomes. -/
structure ActionEnv where
  cache : Option ManagerQ
  gs : Nat → Except PyExc ManagerQ

/-- The body of `smtc_action` (src/main.py lines 120-177) inside its outer
`try`: everything that can raise is in the `Except` monad. Mirrors the source
branch for branch, including the `getattr(..., True)` capability defaults of
the dispatcher. -/
def smtc_action_body (env : ActionEnv) (action : String) :
    Except PyExc (Bool × String) :=
  if action = "refresh" then
    match env.gs 0 with
    | .error e => .error e
    | .ok _ => .ok (true, "Refreshed sessions")
  else
    match (ensure_session env.cache env.gs).result with
    | .error e => .error e
    | .ok none => .ok (false, "No media sessions detected")
    | .ok (some session) =>
      match session.pbiE with
      | .error e => .error e
      | .ok pbi =>
        let controls := pbi.controls
        if action = "play_pause" then
          if session.hasToggle then
            match session.toggleE with
            | .error e => .error e
            | .ok ok =>
              .ok (ok, if ok then "Toggled Play/Pause" else "Toggle Play/Pause failed")
          else if !(controls.is_play_enabled.getD true
                    || controls.is_pause_enabled.getD true) then
            .ok (false, "Play/Pause not supported by this app/content")
          else if statusPlaying pbi.playback_status
                    && controls.is_pause_enabled.getD true then
            match session.pauseE with
            | .error e => .error e
            | .ok ok => .ok (ok, if ok then "Pause" else "Pause failed")
          else if controls.is_play_enabled.getD true then
            match session.playE with
            | .error e => .error e
            | .ok ok => .ok (ok, if ok then "Play" else "Play failed")
          else
            .ok (false, "Play/Pause currently disabled")
        else if action = "play" then
          match session.playE with
          | .error e => .error e
          | .ok ok => .ok (ok, if ok then "Play" else "Play failed")
        else if action = "pause" then
          match session.pauseE with
          | .error e => .error e
          | .ok ok => .ok (ok, if ok then "Pause" else "Pause failed")
        else if action = "next" then
          if !(controls.is_next_enabled.getD true) then
            .ok (false, "Next not supported for this content")
          else
            match session.nextE with
            | .error e => .error e
            | .ok ok => .ok (ok, if ok then "Next" else "Skip next failed")
        else if action = "prev" then
          if !(controls.is_previous_enabled.getD true) then
            .ok (false, "Previous not supported for this content")
          else
            match session.prevE with
            | .error e => .error e
            | .ok ok => .ok (ok, if ok then "Previous" else "Skip previous failed")
        else
          .ok (false, "Unknown action: " ++ action)

/-- Embedding of `smtc_action`: the body wrapped in the outer
`except Exception as e: return False, f"..."` handler. -/
def smtc_action (env : ActionEnv) (action : String) : Bool × String :=
  match smtc_action_body env action with
  | .ok r => r
  | .error e => (false, e.fmt)

/-- Embedding of `get_cover_surface` (src/main.py lines 180-224). `pyg` and
`pil` are the two decoders (`pygame.image.load` composed with
`convert_alpha`, and the Pillow RGBA path): total functions from the raw
bytes to an optional decoded surface, a failure or raised decoder exception
being `none`. Every raising step of the source (properties query, stream
read) is an `Except.error` and is mapped to `none` by the enclosing `try`.
Decoded surfaces are identified by `Nat` tags. -/
def get_cover_surface (pyg pil : List Nat → Option Nat) (s : Sess) : Option Nat :=
  match s.propsE with
  | .error _ => none
  | .ok props =>
    match props.thumbnail with
    | none => none
    | some tr =>
      match tr.readE with
      | .error _ => none
      | .ok raw =>
        if raw.length = 0 then none
        else
          match pyg raw with
          | some surf => some surf
          | none =>
            match pil raw with
            | some surf => some surf
            | none => none

/-- A component of the heterogeneous Python tuple returned by
`query_now_playing`. -/
inductive PyObj where
  | pyStr (s : String)
  | pyBool (b : Bool)
  | pyCaps (play_pause next prev : Bool)
  | pyCover (c : Option Nat)
  | pyNone
  deriving DecidableEq, Repr

/-- The `(title, artist, has_thumb)` triple of `query_now_playing`, with the
defaults its `except` clause installs on a metadata-query failure. -/
def qnp_meta (s : Sess) : String × String × Bool :=
  match s.propsE with
  | .ok p =>
    (if p.title = "" then "Unknown Title" else p.title,
     if p.artist ≠ "" then p.artist
      else if p.album_artist ≠ "" then p.album_artist else "",
     p.thumbnail.isSome)
  | .error _ => ("Unknown Title", "", false)

/-- The source-application identifier of `query_now_playing`, empty on a
query failure. -/
def qnp_disp (s : Sess) : String :=
  match s.sourceE with
  | .ok d => d
  | .error _ => ""

/-- The capability flags and `is_playing` of `query_now_playing`: read from
`playback_info` with `getattr(..., False)` defaults, or the conservative
`{all true}, is_playing=False` installed by its `except` clause when the
query raises. -/
def qnp_caps_playing (s : Sess) : (Bool × Bool × Bool) × Bool :=
  match s.pbiE with
  | .ok pbi =>
    ((pbi.controls.is_play_pause_toggle_enabled.getD false
        || pbi.controls.is_play_enabled.getD false
        || pbi.controls.is_pause_enabled.getD false,
      pbi.controls.is_next_enabled.getD false,
      pbi.controls.is_previous_enabled.getD false),
     statusPlaying pbi.playback_status)
  | .error _ => ((true, true, true), false)

/-- Embedding of `query_now_playing` (src/main.py lines 267-319), returning
the Python tuple as a `List PyObj` so its arity is observable. The session
argument is the result of `_ensure_session` (`none` = no session resolved).
Note the no-session branch of the source returns an 8-element tuple with a
trailing extra `None`, while the with-session branch returns the 7-element
tuple its docstring documents. -/
def query_now_playing (pyg pil : List Nat → Option Nat) :
    Option Sess → List PyObj
  | none =>
    [PyObj.pyStr "Nothing playing", PyObj.pyStr "", PyObj.pyStr "",
     PyObj.pyCaps false false false, PyObj.pyBool false, PyObj.pyCover none,
     PyObj.pyBool false, PyObj.pyNone]
  | some s =>
    [PyObj.pyStr (qnp_meta s).1, PyObj.pyStr (qnp_meta s).2.1,
     PyObj.pyStr (qnp_disp s),
     PyObj.pyCaps (qnp_caps_playing s).1.1 (qnp_caps_playing s).1.2.1
       (qnp_caps_playing s).1.2.2,
     PyObj.pyBool (qnp_caps_playing s).2,
     PyObj.pyCover (get_cover_surface pyg pil s),
     PyObj.pyBool (qnp_meta s).2.2]

/-- Automation ("Minecraft mode") state of the UI loop: `mcMode` is
`MINECRAFT_MODE`, `lastTrackKey` is `last_track_key`, `resumeAt` is
`mc_resume_at` (epoch seconds), `ignoreNext` is `mc_ignore_next_change`. -/
structure AutoState where
  mcMode : Bool
  lastTrackKey : Option String
  resumeAt : Option Int
  ignoreNext : Bool
  deriving DecidableEq, Repr

/-- A transport command dispatched through `smtc_action` by the UI loop. -/
inductive Cmd where
  | play
  | pause
  | playPause
  | skipNext
  | skipPrev
  deriving DecidableEq, Repr

/-- Outcome of one timer check: the value of `mc_resume_at` afterwards and
whether a `play` command was dispatched on this iteration. -/
structure TimerStep where
  resumeAt : Option Int
  playIssued : Bool
  deriving DecidableEq, Repr

/-- Embedding of the timer check at the top of each loop iteration
(src/main.py lines 949-964): when Minecraft mode is on and a resume time is
armed, compute `timer_remaining = max(0, t - now)`; at `timer_remaining <= 0`
dispatch `play` (best effort, its exception is caught locally) and clear the
timer in the same iteration. -/
def mc_timer_check (mcMode : Bool) (resumeAt : Option Int) (now : Int) :
    TimerStep :=
  match mcMode, resumeAt with
  | true, some t =>
    let remaining : Int := max 0 (t - now)
    if remaining ≤ 0 then ⟨none, true⟩ else ⟨some t, false⟩
  | _, _ => ⟨resumeAt, false⟩

/-- Iterates `mc_timer_check` over the successive values of `time.time()`
seen by consecutive loop iterations, recording for each iteration whether a
`play` was dispatched. -/
def mc_timer_run (mcMode : Bool) (resumeAt : Option Int) :
    List Int → List Bool
  | [] => []
  | now :: rest =>
    let st := mc_timer_check mcMode resumeAt now
    st.playIssued :: mc_timer_run mcMode st.resumeAt rest

/-- Specification pattern for the armed timer: fire exactly on the first
iteration whose time has reached `t`, never afterwards. -/
def firstFire (t : Int) : List Int → List Bool
  | [] => []
  | now :: rest =>
    if t ≤ now then true :: rest.map (fun _ => false)
    else false :: firstFire t rest

/-- The state mutation the `prev` / `next` click handler performs before
dispatching the skip (src/main.py lines 832-837 and 852-855): under
Minecraft mode, set `mc_ignore_next_change` and clear `mc_resume_at`. -/
def skip_pre_state (st : AutoState) : AutoState :=
  if st.mcMode then { st with ignoreNext := true, resumeAt := none } else st

/-- Embedding of the `prev` / `next` click handler (src/main.py lines
831-866). `skipE` is the outcome of `runner.run(smtc_action(...))` for the
skip; if it raises, the outer handler of the click loop catches it and the
play-after-skip is never reached. When the dispatch returns and a timer was
armed (`had_timer`), exactly one `play` is dispatched afterwards (its own
exception being caught locally). Returns the new state and the commands
dispatched, in order. -/
def handle_skip (st : AutoState) (skipE : Except PyExc (Bool × String))
    (isNext : Bool) : AutoState × List Cmd :=
  let hadTimer := st.resumeAt.isSome
  let st1 := skip_pre_state st
  let skipCmd := if isNext then Cmd.skipNext else Cmd.skipPrev
  match skipE with
  | .error _ => (st1, [skipCmd])
  | .ok _ =>
    if st.mcMode && hadTimer then (st1, [skipCmd, Cmd.play])
    else (st1, [skipCmd])

/-- Embedding of the track-change detection of the periodic refresh handler
(src/main.py lines 787-804), entered after a successful snapshot query with
new key `newKey`: when the previous key exists and differs, either pause and
arm the resume timer (Minecraft mode on and not overridden) or do nothing,
then clear the override flag and record the new key. -/
def poll_track_change (st : AutoState) (newKey : String) (now delay : Int) :
    AutoState × List Cmd :=
  match st.lastTrackKey with
  | none => (st, [])
  | some lk =>
    if newKey = lk then (st, [])
    else if st.mcMode && !st.ignoreNext then
      ({ st with resumeAt := some (now + delay), ignoreNext := false,
                 lastTrackKey := some newKey }, [Cmd.pause])
    else
      ({ st with ignoreNext := false, lastTrackKey := some newKey }, [])

/-- One automation-relevant event of the UI loop. `refreshOk` is a periodic
refresh whose query succeeded with the given track key; `refreshFail` is a
refresh whose query raised (caught, state untouched); the clicks are the
transport / toggle buttons; `timerTick` is the per-iteration timer check. -/
inductive LoopEvent where
  | refreshOk (newKey : String) (now : Int)
  | refreshFail
  | clickPrev (skipE : Except PyExc (Bool × String))
  | clickNext (skipE : Except PyExc (Bool × String))
  | clickPlayPause (isPlaying : Bool)
  | clickMc
  | timerTick (now : Int)

/-- One step of the UI loop's automation logic over an event, mirroring the
corresponding handler in `main` (src/main.py lines 768-964): the track-change
branch of the refresh handler, the transport-click handlers, the Minecraft
mode toggle (clear timer and override flag), and the timer check. -/
def loop_step (delay : Int) (st : AutoState) : LoopEvent → AutoState × List Cmd
  | .refreshOk newKey now => poll_track_change st newKey now delay
  | .refreshFail => (st, [])
  | .clickPrev skipE => handle_skip st skipE false
  | .clickNext skipE => handle_skip st skipE true
  | .clickPlayPause isPlaying =>
    let st1 :=
      if st.mcMode && st.resumeAt.isSome && !isPlaying then
        { st with resumeAt := none }
      else st
    (st1, [Cmd.playPause])
  | .clickMc =>
    ({ st with mcMode := !st.mcMode, resumeAt := none, ignoreNext := false }, [])
  | .timerTick now =>
    let r := mc_timer_check st.mcMode st.resumeAt now
    ({ st with resumeAt := r.resumeAt },
     if r.playIssued then [Cmd.play] else [])

/-- Runs the UI loop's automation logic over a sequence of events,
accumulating every dispatched command in order. -/
def loop_run (delay : Int) (st : AutoState) :
    List LoopEvent → AutoState × List Cmd
  | [] => (st, [])
  | e :: rest =>
    let step := loop_step delay st e
    let tail := loop_run delay step.1 rest
    (tail.1, step.2 ++ tail.2)

/-- A decoder that always fails (used to instantiate decoder parameters in
closed statements). -/
def demoPyg : List Nat → Option Nat := fun _ => none

/-- A second always-failing decoder for closed statements. -/
def demoPil : List Nat → Option Nat := fun _ => none

/-- A concrete exception raised by the modelled WinRT layer. -/
def crashExc : PyExc := ⟨"OSError", "winrt failure"⟩

/-- A manager handle whose `get_current_session` and `get_sessions` both
raise: every `_pick_best_session` on it fails. -/
def badMgr : ManagerQ := ⟨.error crashExc, .error crashExc⟩

/-- A `_get_manager` stream that always yields the failing manager. -/
def badGs : Nat → Except PyExc ManagerQ := fun _ => .ok badMgr

/-- Concrete control flags for demo sessions. -/
def demoControls : ControlsOpt :=
  ⟨some true, some true, some true, some true, some false⟩

/-- Playback info of a paused demo session. -/
def demoPbi : Pbi := ⟨.paused, demoControls⟩

/-- Media properties of a demo session, without a thumbnail. -/
def demoProps : MediaProps := ⟨"Song", "Artist", "", none⟩

/-- A fully healthy paused demo session. -/
def demoSess : Sess :=
  ⟨1, .ok demoPbi, true, .ok true, .ok true, .ok true, .ok true, .ok true,
   .ok demoProps, .ok "Spotify.exe"⟩

/-- A healthy demo session that reports Playing. -/
def playSess : Sess := { demoSess with sid := 2, pbiE := .ok ⟨.playing, demoControls⟩ }

/-- A manager whose current session is the demo session. -/
def goodMgr : ManagerQ := ⟨.ok (some demoSess), .ok []⟩

/-- A `_get_manager` stream that recovers with the healthy manager. -/
def recoverGs : Nat → Except PyExc ManagerQ := fun _ => .ok goodMgr

/-- A manager with no current session enumerating a paused session before a
playing one. -/
def enumMgr : ManagerQ := ⟨.ok none, .ok [demoSess, playSess]⟩

/-- A session whose playback-status/capability query raises. -/
def errSess : Sess := { demoSess with pbiE := .error crashExc }

/-- A `_get_manager` stream that always raises. -/
def errGs : Nat → Except PyExc ManagerQ := fun _ => .error crashExc

/-- A dispatch environment with an empty cache and a raising manager
acquisition. -/
def errEnv : ActionEnv := ⟨none, errGs⟩

/-- Concrete raw thumbnail bytes for the decoder-chain witness. -/
def demoRaw : List Nat := [82, 73, 70, 70]

/-- A primary decoder that rejects everything (pygame lacking the format). -/
def pygFail : List Nat → Option Nat := fun _ => none

/-- A secondary decoder that decodes exactly the demo bytes. -/
def pilOk : List Nat → Option Nat := fun raw => if raw = demoRaw then some 9 else none

/-- A session exposing a readable thumbnail holding the demo bytes. -/
def webpSess : Sess :=
  { demoSess with propsE := .ok { demoProps with thumbnail := some ⟨.ok demoRaw⟩ } }

/-- An automation state that is Armed with Minecraft mode on. -/
def armedSt : AutoState := ⟨true, some "A|X|App", some 100, false⟩

/-- An automation state whose override flag is set after a user skip. -/
def overrideSt : AutoState := ⟨true, some "A|X|App", none, true⟩

/-- A demo event sequence for the no-initial-key invariant: a refresh that
reports a new key, a late timer tick, and a user skip. -/
def demoEvents : List LoopEvent :=
  [LoopEvent.refreshOk "B|Y|App" 10, LoopEvent.timerTick 1000,
   LoopEvent.clickNext (.ok (true, "Next"))]

/-- Claim C1 (code bug witness): with no resolved session,
`query_now_playing` does return the "Nothing playing" title, all-false
capabilities, `is_playing = False` and an absent cover — but as an 8-tuple
(with a trailing extra `None`), while the with-session branch returns the
7-tuple documented by the function's own docstring, so the caller's 7-name
unpacking raises `ValueError` exactly in the no-session case. -/
theorem query_now_playing_no_session_shape :
    query_now_playing demoPyg demoPil none
      = [PyObj.pyStr "Nothing playing", PyObj.pyStr "", PyObj.pyStr "",
         PyObj.pyCaps false false false, PyObj.pyBool false,
         PyObj.pyCover none, PyObj.pyBool false, PyObj.pyNone]
    ∧ (query_now_playing demoPyg demoPil none).length = 8
    ∧ (query_now_playing demoPyg demoPil (some demoSess)).length = 7 :=
  ⟨rfl, rfl, rfl⟩

/-- Claim C2 (counterexample): when the pick on the cached manager fails and
the pick on the re-acquired manager fails again, `_ensure_session` raises the
second exception to its caller instead of returning `None`. -/
theorem ensure_session_double_failure_raises :
    (ensure_session (some badMgr) badGs).result = .error crashExc
    ∧ (ensure_session (some badMgr) badGs).result ≠ .ok none :=
  ⟨rfl, by decide⟩

/-- Claim C2 (amended): if the first selection attempt on the cached manager
fails, the manager is re-acquired exactly once and selection retried exactly
once within the call; a successful retry's result is returned with the fresh
manager cached; but if the retry also fails its exception propagates to the
caller (it is not converted to `None`). The last conjunct ties the
empty-cache invocation to the same retry body. -/
theorem ensure_session_retry_once
    (m : ManagerQ) (gs : Nat → Except PyExc ManagerQ) (e : PyExc)
    (hfail : pick_best_session m = .error e) :
    ((ensure_session (some m) gs).acquisitions = 1
      ∧ (ensure_session (some m) gs).pickAttempts ≤ 2)
    ∧ (∀ m2 r, gs 0 = .ok m2 → pick_best_session m2 = .ok r →
        ensure_session (some m) gs = ⟨.ok r, some m2, 1, 2⟩)
    ∧ (∀ m2 e2, gs 0 = .ok m2 → pick_best_session m2 = .error e2 →
        (ensure_session (some m) gs).result = .error e2)
    ∧ (∀ gs2 : Nat → Except PyExc ManagerQ, gs2 0 = .ok m →
        ensure_session none gs2 = ensure_session_core m gs2 1) := by
  refine ⟨?_, ?_, ?_, ?_⟩
  · simp only [ensure_session, ensure_session_core, hfail]
    cases hg : gs 0 with
    | error e1 => simp
    | ok m2 =>
      cases hp : pick_best_session m2 with
      | ok r => simp [hp]
      | error e2 => simp [hp]
  · intro m2 r hg hp
    simp only [ensure_session, ensure_session_core, hfail, hg, hp]
  · intro m2 e2 hg hp
    simp only [ensure_session, ensure_session_core, hfail, hg, hp]
  · intro gs2 hg
    simp only [ensure_session, hg]

/-- Claim C2 witness: a concrete failing pick followed by a successful retry
returns the retried result with one re-acquisition and two pick attempts. -/
theorem ensure_session_retry_once_witness :
    ensure_session (some badMgr) recoverGs
      = ⟨.ok (some demoSess), some goodMgr, 1, 2⟩ :=
  (ensure_session_retry_once badMgr recoverGs crashExc rfl).2.1
    goodMgr (some demoSess) rfl rfl

/-- Claim C3: when the manager queries succeed, `_pick_best_session` returns
the current session when one exists; otherwise the first enumerated session
reporting Playing; otherwise the first enumerated session (`head?`, which is
also `none` exactly on an empty enumeration). -/
theorem pick_best_session_fallback
    (m : ManagerQ) (cur : Option Sess) (ss : List Sess)
    (hc : m.current = .ok cur) (hs : m.sessionsQ = .ok ss) :
    (∀ c, cur = some c → pick_best_session m = .ok (some c))
    ∧ (cur = none → ∀ p, ss.find? sessIsPlaying = some p →
        pick_best_session m = .ok (some p))
    ∧ (cur = none → ss.find? sessIsPlaying = none →
        pick_best_session m = .ok ss.head?) := by
  refine ⟨?_, ?_, ?_⟩
  · intro c hcur
    subst hcur
    simp [pick_best_session, hc, hs]
  · intro hcur p hfind
    subst hcur
    cases ss with
    | nil => simp at hfind
    | cons first rest => simp [pick_best_session, hc, hs, hfind]
  · intro hcur hfind
    subst hcur
    cases ss with
    | nil => simp [pick_best_session, hc, hs]
    | cons first rest => simp [pick_best_session, hc, hs, hfind]

/-- Claim C3 witness: on an enumeration with no current session, a paused
session first and a playing session second, the playing one is selected. -/
theorem pick_best_session_fallback_witness :
    pick_best_session enumMgr = .ok (some playSess) :=
  (pick_best_session_fallback enumMgr none [demoSess, playSess] rfl rfl).2.1
    rfl playSess (by decide)

/-- Claim C4: when the playback-status/capability query raises, the snapshot
carries all three capability flags true and `is_playing = False`, and the
fetch still completes with the full 7-component snapshot. -/
theorem query_now_playing_caps_default
    (pyg pil : List Nat → Option Nat) (s : Sess) (e : PyExc)
    (hpbi : s.pbiE = .error e) :
    (query_now_playing pyg pil (some s)).get? 3
        = some (PyObj.pyCaps true true true)
    ∧ (query_now_playing pyg pil (some s)).get? 4 = some (PyObj.pyBool false)
    ∧ (query_now_playing pyg pil (some s)).length = 7 := by
  have hcaps : qnp_caps_playing s = ((true, true, true), false) := by
    simp [qnp_caps_playing, hpbi]
  refine ⟨?_, ?_, rfl⟩
  · simp [query_now_playing, hcaps]
  · simp [query_now_playing, hcaps]

/-- Claim C4 witness: a concrete session with a raising playback-info query
yields the conservative defaults. -/
theorem query_now_playing_caps_default_witness :
    (query_now_playing demoPyg demoPil (some errSess)).get? 3
        = some (PyObj.pyCaps true true true)
    ∧ (query_now_playing demoPyg demoPil (some errSess)).get? 4
        = some (PyObj.pyBool false) :=
  ⟨(query_now_playing_caps_default demoPyg demoPil errSess crashExc rfl).1,
   (query_now_playing_caps_default demoPyg demoPil errSess crashExc rfl).2.1⟩

/-- Claim C5: for every action string and every cache / manager environment,
`smtc_action` never raises: any exception its body raises is converted to a
`(False, message)` result whose message carries the exception's type name and
message, and a normally returned result is passed through unchanged. -/
theorem smtc_action_catches_all (env : ActionEnv) (action : String) :
    (∀ e, smtc_action_body env action = .error e →
        smtc_action env action = (false, e.name ++ ": " ++ e.msg))
    ∧ (∀ r, smtc_action_body env action = .ok r →
        smtc_action env action = r) := by
  constructor
  · intro e h
    simp [smtc_action, h, PyExc.fmt]
  · intro r h
    simp [smtc_action, h]

/-- Claim C5 witness: with an empty cache and a raising manager acquisition,
dispatching `play` yields the formatted failure pair instead of raising. -/
theorem smtc_action_catches_all_witness :
    smtc_action errEnv "play" = (false, "OSError: winrt failure") :=
  ((smtc_action_catches_all errEnv "play").1 crashExc rfl).trans (by rfl)

/-- Claim C6: the decoder chain of `get_cover_surface` tries the primary
(pygame) decoder first and the secondary (Pillow) decoder only when the
primary fails, returning the secondary's result with no further fallback;
it returns `none` when the session has no thumbnail reference, when zero
bytes were read, or when both decoders fail; and every raising step
(properties query, stream read) is absorbed into `none`, so the operation
never raises. -/
theorem get_cover_surface_chain (pyg pil : List Nat → Option Nat) (s : Sess) :
    (∀ e, s.propsE = .error e → get_cover_surface pyg pil s = none)
    ∧ (∀ p, s.propsE = .ok p → p.thumbnail = none →
        get_cover_surface pyg pil s = none)
    ∧ (∀ p tr e, s.propsE = .ok p → p.thumbnail = some tr →
        tr.readE = .error e → get_cover_surface pyg pil s = none)
    ∧ (∀ p tr raw, s.propsE = .ok p → p.thumbnail = some tr →
        tr.readE = .ok raw → raw.length = 0 →
        get_cover_surface pyg pil s = none)
    ∧ (∀ p tr raw, s.propsE = .ok p → p.thumbnail = some tr →
        tr.readE = .ok raw → raw.length ≠ 0 →
        get_cover_surface pyg pil s
          = match pyg raw with
            | some surf => some surf
            | none => pil raw) := by
  refine ⟨?_, ?_, ?_, ?_, ?_⟩
  · intro e hp
    simp [get_cover_surface, hp]
  · intro p hp ht
    simp [get_cover_surface, hp, ht]
  · intro p tr e hp ht hr
    simp [get_cover_surface, hp, ht, hr]
  · intro p tr raw hp ht hr hlen
    simp [get_cover_surface, hp, ht, hr, hlen]
  · intro p tr raw hp ht hr hlen
    simp only [get_cover_surface, hp, ht, hr, if_neg hlen]
    cases pyg raw with
    | some surf => rfl
    | none =>
      cases pil raw with
      | some surf => rfl
      | none => rfl

/-- Claim C6 witness: bytes the primary decoder rejects and the secondary
decoder accepts produce the secondary's surface. -/
theorem get_cover_surface_chain_witness :
    get_cover_surface pygFail pilOk webpSess = some 9 :=
  ((get_cover_surface_chain pygFail pilOk webpSess).2.2.2.2
      { demoProps with thumbnail := some ⟨.ok demoRaw⟩ } ⟨.ok demoRaw⟩ demoRaw
      rfl rfl rfl (by decide)).trans (by rfl)

theorem count_true_map_false (l : List Int) :
    ((l.map fun _ => false).count true) = 0 := by
  induction l with
  | nil => rfl
  | cons x rest ih => simpa using ih

theorem max_zero_sub_nonpos (t now : Int) : max 0 (t - now) ≤ 0 ↔ t ≤ now := by
  rw [max_le_iff]
  omega

theorem mc_timer_check_some (t now : Int) :
    mc_timer_check true (some t) now
      = if t ≤ now then ⟨none, true⟩ else ⟨some t, false⟩ := by
  simp only [mc_timer_check]
  by_cases h : t ≤ now
  · rw [if_pos ((max_zero_sub_nonpos t now).mpr h), if_pos h]
  · rw [if_neg (fun hc => h ((max_zero_sub_nonpos t now).mp hc)), if_neg h]

theorem mc_timer_run_none (l : List Int) :
    mc_timer_run true none l = l.map fun _ => false := by
  induction l with
  | nil => rfl
  | cons now rest ih => simpa [mc_timer_run, mc_timer_check] using ih

theorem mc_timer_run_eq_firstFire (t : Int) (times : List Int) :
    mc_timer_run true (some t) times = firstFire t times := by
  induction times with
  | nil => rfl
  | cons now rest ih =>
    by_cases h : t ≤ now
    · simp [mc_timer_run, mc_timer_check_some, h, firstFire, mc_timer_run_none]
    · simp [mc_timer_run, mc_timer_check_some, h, firstFire, ih]

theorem firstFire_count (t : Int) (times : List Int) :
    (firstFire t times).count true
      = (if times.any (fun n => decide (t ≤ n)) then 1 else 0) := by
  induction times with
  | nil => rfl
  | cons now rest ih =>
    by_cases h : t ≤ now
    · simp [firstFire, h, List.count_replicate]
    · simp [firstFire, h, ih]

/-- Claim C7: with automation enabled and the timer armed at `t`, the loop
dispatches `play` exactly on the first iteration whose clock has reached `t`
(and never again for that arming), the total number of `play` dispatches over
any run is one exactly when some iteration reaches `t`, and the timer is
cleared in the same iteration as the dispatch. -/
theorem mc_timer_exactness (t : Int) (times : List Int) :
    mc_timer_run true (some t) times = firstFire t times
    ∧ (mc_timer_run true (some t) times).count true
        = (if times.any (fun n => decide (t ≤ n)) then 1 else 0)
    ∧ (∀ now, t ≤ now → mc_timer_check true (some t) now = ⟨none, true⟩) := by
  refine ⟨mc_timer_run_eq_firstFire t times, ?_, ?_⟩
  · rw [mc_timer_run_eq_firstFire t times, firstFire_count]
  · intro now h
    rw [mc_timer_check_some, if_pos h]

/-- Claim C7 witness: with the timer armed at 5, a run whose clocks are
1, 3, 7, 9 dispatches `play` exactly on the third iteration, and the check at
clock 7 clears the timer atomically with the dispatch. -/
theorem mc_timer_exactness_witness :
    mc_timer_run true (some 5) [1, 3, 7, 9] = [false, false, true, false]
    ∧ mc_timer_check true (some 5) 7 = ⟨none, true⟩ :=
  ⟨((mc_timer_exactness 5 [1, 3, 7, 9]).1).trans (by decide),
   (mc_timer_exactness 5 [1, 3, 7, 9]).2.2 7 (by decide)⟩

/-- Claim C8: a `next` / `prev` click with automation enabled clears
`mc_resume_at` and sets `mc_ignore_next_change` before the skip is
dispatched (the state passed into the dispatch is `skip_pre_state`, and the
handler never changes it afterwards); when the engine was Armed and the skip
dispatch returns, exactly one `play` follows the skip; and when it was not
Armed, no `play` is dispatched at all. -/
theorem handle_skip_armed (st : AutoState)
    (skipE : Except PyExc (Bool × String)) (isNext : Bool)
    (hmc : st.mcMode = true) :
    ((skip_pre_state st).resumeAt = none
      ∧ (skip_pre_state st).ignoreNext = true)
    ∧ (handle_skip st skipE isNext).1 = skip_pre_state st
    ∧ (∀ r, skipE = .ok r → st.resumeAt.isSome = true →
        (handle_skip st skipE isNext).2
          = [if isNext then Cmd.skipNext else Cmd.skipPrev, Cmd.play])
    ∧ (st.resumeAt = none →
        Cmd.play ∉ (handle_skip st skipE isNext).2) := by
  refine ⟨⟨?_, ?_⟩, ?_, ?_, ?_⟩
  · simp [skip_pre_state, hmc]
  · simp [skip_pre_state, hmc]
  · cases skipE with
    | error e => rfl
    | ok r =>
      simp only [handle_skip]
      cases h : st.resumeAt.isSome <;> simp [h, hmc]
  · intro r hE hsome
    subst hE
    simp [handle_skip, hmc, hsome]
  · intro hnone
    cases skipE with
    | error e => simp [handle_skip]; cases isNext <;> simp
    | ok r =>
      simp [handle_skip, hnone]
      cases isNext <;> simp

/-- Claim C8 witness: a `next` click in the Armed demo state dispatches the
skip followed by exactly one `play`, with the pre-dispatch state already
cleared and overriding. -/
theorem handle_skip_armed_witness :
    (handle_skip armedSt (.ok (true, "Next")) true).2 = [Cmd.skipNext, Cmd.play]
    ∧ (skip_pre_state armedSt).resumeAt = none
    ∧ (skip_pre_state armedSt).ignoreNext = true :=
  ⟨((handle_skip_armed armedSt (.ok (true, "Next")) true rfl).2.2.1
      (true, "Next") rfl rfl).trans (by rfl),
   (handle_skip_armed armedSt (.ok (true, "Next")) true rfl).1.1,
   (handle_skip_armed armedSt (.ok (true, "Next")) true rfl).1.2⟩

/-- Claim C9: on a poll tick that detects a track change while
`mc_ignore_next_change` is true, no `pause` is dispatched, `mc_resume_at` is
left untouched (no Armed transition), the override flag is cleared, and
`last_track_key` is updated to the new key. -/
theorem poll_track_change_override (st : AutoState) (newKey : String)
    (now delay : Int) (lk : String)
    (hl : st.lastTrackKey = some lk) (hne : newKey ≠ lk)
    (hig : st.ignoreNext = true) :
    poll_track_change st newKey now delay
      = ({ st with ignoreNext := false, lastTrackKey := some newKey }, [])
    ∧ (poll_track_change st newKey now delay).1.resumeAt = st.resumeAt
    ∧ Cmd.pause ∉ (poll_track_change st newKey now delay).2 := by
  have h1 : poll_track_change st newKey now delay
      = ({ st with ignoreNext := false, lastTrackKey := some newKey }, []) := by
    simp [poll_track_change, hl, hne, hig]
  exact ⟨h1, by rw [h1], by rw [h1]; simp⟩

/-- Claim C9 witness: a track change from the override demo state clears the
flag, keeps the timer unarmed, records the new key, and dispatches nothing. -/
theorem poll_track_change_override_witness :
    poll_track_change overrideSt "B|Y|App" 50 300
      = (⟨true, some "B|Y|App", none, false⟩, []) :=
  (poll_track_change_override overrideSt "B|Y|App" 50 300 "A|X|App"
      rfl (by decide) rfl).1

theorem loop_step_inert (delay : Int) (st : AutoState) (e : LoopEvent)
    (hk : st.lastTrackKey = none) (hr : st.resumeAt = none) :
    (loop_step delay st e).1.lastTrackKey = none
    ∧ (loop_step delay st e).1.resumeAt = none
    ∧ Cmd.pause ∉ (loop_step delay st e).2
    ∧ Cmd.play ∉ (loop_step delay st e).2 := by
  cases e with
  | refreshOk newKey now => simp [loop_step, poll_track_change, hk, hr]
  | refreshFail => simp [loop_step, hk, hr]
  | clickPrev skipE =>
    cases skipE with
    | error e1 =>
      cases h : st.mcMode <;>
        simp [loop_step, handle_skip, skip_pre_state, hk, hr, h]
    | ok r =>
      cases h : st.mcMode <;>
        simp [loop_step, handle_skip, skip_pre_state, hk, hr, h]
  | clickNext skipE =>
    cases skipE with
    | error e1 =>
      cases h : st.mcMode <;>
        simp [loop_step, handle_skip, skip_pre_state, hk, hr, h]
    | ok r =>
      cases h : st.mcMode <;>
        simp [loop_step, handle_skip, skip_pre_state, hk, hr, h]
  | clickPlayPause isPlaying => simp [loop_step, hk, hr]
  | clickMc => simp [loop_step, hk, hr]
  | timerTick now =>
    cases h : st.mcMode <;>
      simp [loop_step, mc_timer_check, hk, hr, h]

/-- Claim C10: if `last_track_key` was never initialised (the initial
snapshot query failed) and the timer is unarmed, then over every sequence of
loop events the key stays unset, the track-change branch never runs, the
resume timer is never armed, and the automation never dispatches a `pause`
or a timer `play` for the rest of the process — even if Minecraft mode is or
becomes enabled. -/
theorem no_key_no_automation (delay : Int) (st : AutoState)
    (events : List LoopEvent)
    (hk : st.lastTrackKey = none) (hr : st.resumeAt = none) :
    (loop_run delay st events).1.lastTrackKey = none
    ∧ (loop_run delay st events).1.resumeAt = none
    ∧ Cmd.pause ∉ (loop_run delay st events).2
    ∧ Cmd.play ∉ (loop_run delay st events).2 := by
  induction events generalizing st with
  | nil => simpa [loop_run] using ⟨hk, hr⟩
  | cons e rest ih =>
    have hs := loop_step_inert delay st e hk hr
    have ht := ih (loop_step delay st e).1 hs.1 hs.2.1
    refine ⟨?_, ?_, ?_, ?_⟩ <;>
      simp only [loop_run, List.mem_append, not_or]
    · exact ht.1
    · exact ht.2.1
    · exact ⟨hs.2.2.1, ht.2.2.1⟩
    · exact ⟨hs.2.2.2, ht.2.2.2⟩

/-- Claim C10 witness: starting with Minecraft mode on but no recorded key
and no armed timer, a refresh with a new key, a late timer tick and a user
skip still arm nothing and dispatch neither `pause` nor `play`. -/
theorem no_key_no_automation_witness :
    Cmd.pause ∉ (loop_run 300 ⟨true, none, none, false⟩ demoEvents).2
    ∧ Cmd.play ∉ (loop_run 300 ⟨true, none, none, false⟩ demoEvents).2
    ∧ (loop_run 300 ⟨true, none, none, false⟩ demoEvents).1.resumeAt = none :=
  ⟨(no_key_no_automation 300 ⟨true, none, none, false⟩ demoEvents rfl rfl).2.2.1,
   (no_key_no_automation 300 ⟨true, none, none, false⟩ demoEvents rfl rfl).2.2.2,
   (no_key_no_automation 300 ⟨true, none, none, false⟩ demoEvents rfl rfl).2.1⟩
